import Mathlib

/-
Verification of the raster index / thumbnail compositing pipeline of the
scene_browser QGIS plugin (src/scene_browser).

The embedding models:
  - numpy float arrays as lists of an IEEE-style extended value type FVal
    (finite rationals, NaN, +inf, -inf); real arithmetic is modeled exactly
    over the rationals, which is faithful to the structural claims here
    (sentinel handling, clipping, branch conditions);
  - Python str as List Char;
  - the process-wide GDAL configuration mutated by SetConfigOption as an
    explicitly passed record;
  - QgsTask.run bodies as Except-valued computations over an environment of
    fallible GDAL primitives, and cooperative cancellation as a Boolean flag
    sampled at the poll points that occur in the code.
-/

/-- Python str modeled as a list of characters. -/
abbrev Str := List Char

/-- IEEE-style value of a float32 cell: finite (exact rational), NaN or an
infinity.  numpy arithmetic on cells is mirrored by the operations below. -/
inductive FVal where
  | fin (q : ℚ)
  | nan
  | posInf
  | negInf
deriving DecidableEq

/-- np.isfinite on one cell. -/
def FVal.isFinite : FVal → Bool
  | .fin _ => true
  | _ => false

/-- IEEE negation. -/
def FVal.neg : FVal → FVal
  | .fin q => .fin (-q)
  | .nan => .nan
  | .posInf => .negInf
  | .negInf => .posInf

/-- IEEE addition (inf + -inf = NaN, NaN absorbs). -/
def FVal.add : FVal → FVal → FVal
  | .nan, _ => .nan
  | _, .nan => .nan
  | .posInf, .negInf => .nan
  | .negInf, .posInf => .nan
  | .posInf, _ => .posInf
  | _, .posInf => .posInf
  | .negInf, _ => .negInf
  | _, .negInf => .negInf
  | .fin a, .fin b => .fin (a + b)

/-- IEEE subtraction. -/
def FVal.sub (x y : FVal) : FVal := FVal.add x (FVal.neg y)

/-- IEEE division under np.errstate(divide=ignore, invalid=ignore):
0/0 = NaN, x/0 = signed infinity, x/inf = 0, inf/inf = NaN. -/
def FVal.div : FVal → FVal → FVal
  | .nan, _ => .nan
  | _, .nan => .nan
  | .fin a, .fin b =>
      if b = 0 then
        if a = 0 then .nan
        else if 0 < a then .posInf else .negInf
      else .fin (a / b)
  | .fin _, .posInf => .fin 0
  | .fin _, .negInf => .fin 0
  | .posInf, .fin b => if 0 ≤ b then .posInf else .negInf
  | .negInf, .fin b => if 0 ≤ b then .negInf else .posInf
  | .posInf, .posInf => .nan
  | .posInf, .negInf => .nan
  | .negInf, .posInf => .nan
  | .negInf, .negInf => .nan

/-- numpy elementwise equality (==) on one pair of cells: NaN is equal to
nothing, infinities are equal to themselves. -/
def FVal.feq : FVal → FVal → Bool
  | .fin a, .fin b => decide (a = b)
  | .posInf, .posInf => true
  | .negInf, .negInf => true
  | _, _ => false

/-- Landsat Collection 2 Level-2 surface reflectance scale, dockwidget.py:58
(LS_SR_MULT = 0.0000275 exactly). -/
def LS_SR_MULT : ℚ := 275 / 10000000

/-- Landsat Collection 2 Level-2 surface reflectance offset, dockwidget.py:59
(LS_SR_ADD = -0.2 exactly). -/
def LS_SR_ADD : ℚ := -2 / 10

/-- The Landsat reflectance transform b * LS_SR_MULT + LS_SR_ADD applied to
one cell, dockwidget.py:776-777. -/
def lsScale : FVal → FVal
  | .fin q => .fin (q * LS_SR_MULT + LS_SR_ADD)
  | .nan => .nan
  | .posInf => .posInf
  | .negInf => .negInf

/-- The nodata sentinel -9999.0 used by both index pipelines. -/
def sentinelQ : ℚ := -9999

/-- np.clip(q, -1.0, 1.0) on one finite cell, written with explicit tests so
that the kernel can evaluate it. -/
def clipQ (q : ℚ) : ℚ := if q < -1 then -1 else if 1 < q then 1 else q

/-- The cleaning step of the index compositor, dockwidget.py:785-786:
idx[~np.isfinite(idx)] = -9999.0 followed by
np.where(idx == -9999.0, -9999.0, np.clip(idx, -1.0, 1.0)).
Non-finite cells become the sentinel; a finite cell equal to the sentinel is
kept as the sentinel by the np.where equality test; any other finite cell is
clipped to [-1, 1]. -/
def cleanClip : FVal → ℚ
  | .fin q => if q = sentinelQ then sentinelQ else clipQ q
  | _ => sentinelQ

/-- The cleaning step of the thumbnail index fast path, thumb_tasks.py:101:
idx[~np.isfinite(idx)] = -9999.0 and nothing else (no clip). -/
def cleanNoClip : FVal → ℚ
  | .fin q => q
  | _ => sentinelQ

/-- The normalized-difference quotient (b1 - b2) / (b1 + b2) on one pair of
cells, dockwidget.py:779-782 and thumb_tasks.py:98-100. -/
def nd (x y : FVal) : FVal := FVal.div (FVal.sub x y) (FVal.add x y)

/-- Python str.lower modeled characterwise. -/
def toLowerStr (s : Str) : Str := s.map Char.toLower

/-- Python str.upper modeled characterwise. -/
def toUpperStr (s : Str) : Str := s.map Char.toUpper

/-- Sensor family tag for Landsat requests. -/
def lsStr : Str := "ls".toList

/-- Sensor family tag for Sentinel-2 requests. -/
def s2Str : Str := "s2".toList

/-- dockwidget.py:775-777: the reflectance transform is applied to a band
cell exactly when prefix.lower() == "ls". -/
def scaleIf (pfx : Str) (x : FVal) : FVal :=
  if toLowerStr pfx = lsStr then lsScale x else x

/-- One output cell of _crop_assets_to_index_tif, dockwidget.py:770-786:
conditional sensor scaling of both inputs, the normalized-difference
quotient, then the cleaning step with clip. -/
def cropIndexPixel (pfx : Str) (x y : FVal) : ℚ :=
  cleanClip (nd (scaleIf pfx x) (scaleIf pfx y))

/-- The full written index array of _crop_assets_to_index_tif (elementwise
over the two co-registered band arrays). -/
def cropIndexArray (pfx : Str) (b1 b2 : List FVal) : List ℚ :=
  List.zipWith (cropIndexPixel pfx) b1 b2

/-- startswith on modeled strings: startsWithB s p mirrors Python
s.startswith(p) (characterwise prefix test). -/
def startsWithB : Str → Str → Bool
  | _, [] => true
  | [], _ :: _ => false
  | a :: ss, b :: ps => a == b && startsWithB ss ps

/-- The process-wide GDAL configuration options touched by
gdal.SetConfigOption in _src_from_href; modeled as explicit state. -/
structure GdalConfig where
  awsNoSignRequest : Option Str
  awsRequestPayer : Option Str
deriving DecidableEq

/-- The "s3://" scheme. -/
def s3Scheme : Str := "s3://".toList

/-- The "http://" scheme. -/
def httpScheme : Str := "http://".toList

/-- The "https://" scheme. -/
def httpsScheme : Str := "https://".toList

/-- The "/vsicurl/" VSI root. -/
def vsicurlStr : Str := "/vsicurl/".toList

/-- The "/vsis3/" VSI root. -/
def vsis3Str : Str := "/vsis3/".toList

/-- The value YES of AWS_NO_SIGN_REQUEST. -/
def yesStr : Str := "YES".toList

/-- The value requester of AWS_REQUEST_PAYER. -/
def requesterStr : Str := "requester".toList

/-- The configuration state after the s3 branch of _src_from_href:
AWS_NO_SIGN_REQUEST = YES (unsigned) and AWS_REQUEST_PAYER = requester. -/
def unsignedRequesterPays : GdalConfig :=
  { awsNoSignRequest := some yesStr, awsRequestPayer := some requesterStr }

/-- _src_from_href (thumb_tasks.py:7-18, identical copy in dockwidget.py:7-23):
empty href maps to the bare "/vsicurl/" (which fails downstream), an s3 href
sets unsigned requester-pays config and maps to /vsis3/ plus the remainder
after the scheme, an http(s) href maps to /vsicurl/ plus the full href, and
everything else is returned unchanged.  The second component is the GDAL
configuration state after the call. -/
def srcFromHref (href : Str) (cfg : GdalConfig) : Str × GdalConfig :=
  if href = [] then (vsicurlStr, cfg)
  else if startsWithB href s3Scheme then
    (vsis3Str ++ href.drop 5, unsignedRequesterPays)
  else if startsWithB href httpScheme || startsWithB href httpsScheme then
    (vsicurlStr ++ href, cfg)
  else (href, cfg)

/-- The VSI path component of _src_from_href, as used by the crop calls
(the configuration side effect is global in the source). -/
def vsiPath (href : Str) : Str := (srcFromHref href ⟨none, none⟩).1

/-- Python str.strip for the single character "_" as used in
thumb_tasks.py:70 (rgb_assets[0].strip("_")). -/
def stripUS (s : Str) : Str :=
  ((s.dropWhile (fun c => c == '_')).reverse.dropWhile (fun c => c == '_')).reverse

/-- The asset-role string "NBR" (uppercased index mode name). -/
def nbrStr : Str := "NBR".toList

/-- The asset key "swir2" used as fallback for "swir22". -/
def swir2Str : Str := "swir2".toList

/-- The asset key "swir22" requested by the NBR preset. -/
def swir22Str : Str := "swir22".toList

/-- The NBR index-mode marker "__NBR__" of the preset role list. -/
def nbrMarker : Str := "__NBR__".toList

/-- The NDVI index-mode marker. -/
def ndviMarker : Str := "__NDVI__".toList

/-- The "__" test of the index-mode dispatch (startswith on the marker). -/
def uscore2 : Str := "__".toList

/-- The shared NBR fallback test: substitute "swir2" for the requested second
band exactly when the (already uppercased) mode is NBR, the requested key is
absent and "swir2" is present (thumb_tasks.py:73-74, dockwidget.py:736-737). -/
def nbrFallback (modeU a2 : Str) (keys : List Str) : Str :=
  if modeU = nbrStr ∧ ¬ a2 ∈ keys ∧ swir2Str ∈ keys then swir2Str else a2

/-- The second-band resolution of ThumbnailTask.run, thumb_tasks.py:70-74:
the mode is rgb_assets[0].strip("_").upper(). -/
def thumbResolveA2 (rgb0 a2 : Str) (keys : List Str) : Str :=
  nbrFallback (toUpperStr (stripUS rgb0)) a2 keys

/-- The second-band resolution of _crop_assets_to_index_tif,
dockwidget.py:736-737: the test is mode.upper() == "NBR". -/
def dockResolveA2 (mode a2 : Str) (keys : List Str) : Str :=
  nbrFallback (toUpperStr mode) a2 keys

/-- One cell of the thumbnail index fast path, thumb_tasks.py:98-101: the raw
normalized-difference quotient with non-finite results replaced by the
sentinel, with no sensor scaling and no clip. -/
def thumbIndexPixel (x y : FVal) : ℚ := cleanNoClip (nd x y)

/-- The single-band index array written by the thumbnail index fast path. -/
def thumbIndexArray (b1 b2 : List FVal) : List ℚ :=
  List.zipWith thumbIndexPixel b1 b2

/-- Reference definition following the spec wording for the index-as-color
thumbnail (spec 4.6 referring to 4.5): optional sensor scaling of both bands,
then the index quotient, then non-finite results replaced by the sentinel
(the clip of 4.5 being explicitly excluded by the claim). -/
def specThumbIndexPixel (scaling : Bool) (x y : FVal) : ℚ :=
  cleanNoClip (nd (if scaling then lsScale x else x) (if scaling then lsScale y else y))

/-- The PNG scaleParams row [-1.0, 1.0, 0.0, 255.0] of thumb_tasks.py:118. -/
def pngScaleRow : List ℚ := [-1, 1, 0, 255]

/-- What the index-as-color branch of ThumbnailTask.run writes,
thumb_tasks.py:95-130: the index band values, the GTiff nodata, the
3-fold stacking of gdal.BuildVRT([out_idx, out_idx, out_idx]), and the byte
PNG export parameters scaleParams=[scale, scale, scale] with
scale = [-1, 1, 0, 255] and noData=-9999. -/
structure IndexThumb where
  bandValues : List ℚ
  tifNoData : ℚ
  stackCount : ℕ
  scaleParams : List (List ℚ)
  pngNoData : ℚ
deriving DecidableEq

/-- The value-level result of the index-as-color branch of
ThumbnailTask.run applied to the two cropped band arrays. -/
def thumbIndexMode (b1 b2 : List FVal) : IndexThumb :=
  { bandValues := thumbIndexArray b1 b2
  , tifNoData := sentinelQ
  , stackCount := 3
  , scaleParams := List.replicate 3 pngScaleRow
  , pngNoData := sentinelQ }

/-- The finite cells of a band array, in order (arr[np.isfinite(arr)] after
the arr != nodata filter has produced arr). -/
def finiteVals (l : List FVal) : List ℚ :=
  l.filterMap (fun v => match v with | .fin q => some q | _ => none)

/-- Minimum of a list of rationals (np.nanmin over an all-finite sample);
only meaningful for nonempty input, as in the source where emptiness is
tested first. -/
def listMin : List ℚ → ℚ
  | [] => 0
  | x :: xs => xs.foldl (fun a b => if b < a then b else a) x

/-- Maximum of a list of rationals (np.nanmax over an all-finite sample). -/
def listMax : List ℚ → ℚ
  | [] => 0
  | x :: xs => xs.foldl (fun a b => if a < b then b else a) x

/-- np.percentile with the default linear interpolation: for a sample of
size n its p-th percentile is the linear interpolation at rank
p * (n - 1) / 100 of the sorted sample. -/
def percentileLinear (l : List ℚ) (p : ℚ) : ℚ :=
  let s := List.insertionSort (fun a b : ℚ => a ≤ b) l
  let n := s.length
  if n = 0 then 0
  else
    let rank := p * ((n : ℚ) - 1) / 100
    let i := Int.toNat ⌊rank⌋
    let lo := s.getD (min i (n - 1)) 0
    let hi := s.getD (min (i + 1) (n - 1)) 0
    lo + (rank - (i : ℚ)) * (hi - lo)

/-- The valid-sample selection of PercentileStretchTask._band_percentiles,
render_tasks.py:26-30: drop cells equal to the declared nodata value (numpy
elementwise !=, under which NaN differs from everything), then keep only the
finite cells. -/
def validSamples (arr0 : List FVal) (nodata : Option FVal) : List ℚ :=
  finiteVals (match nodata with
    | some nd => arr0.filter (fun v => !(FVal.feq v nd))
    | none => arr0)

/-- PercentileStretchTask._band_percentiles, render_tasks.py:18-44, given the
band array and the declared nodata value: with fewer than 100 valid samples
return (min, max) of the samples — or (0, 1) when none remain — widening a
degenerate pair to (min, min + 1); otherwise return the (p_low, p_high)
percentiles, falling back to true (min, max) when the percentile pair is
degenerate and widening again if still degenerate. -/
def bandPercentiles (arr0 : List FVal) (nodata : Option FVal) (pl ph : ℚ) : ℚ × ℚ :=
  let arr := validSamples arr0 nodata
  if arr.length < 100 then
    let mn := if arr.length ≠ 0 then listMin arr else 0
    let mx := if arr.length ≠ 0 then listMax arr else 1
    if mx ≤ mn then (mn, mn + 1) else (mn, mx)
  else
    let vmin := percentileLinear arr pl
    let vmax := percentileLinear arr ph
    if vmax ≤ vmin then
      let mn := listMin arr
      let mx := listMax arr
      if mx ≤ mn then (mn, mn + 1) else (mn, mx)
    else (vmin, vmax)

/-- The zero-range widening of the direct thumbnail branch, the local _fix of
thumb_tasks.py:170-173: if mn == mx return (mn, mn + 1). -/
def fixRange (p : ℚ × ℚ) : ℚ × ℚ := if p.1 = p.2 then (p.1, p.1 + 1) else p

/-- Observable steps of a task run, used to model the order of work and the
cancellation poll points of ThumbnailTask.run and PercentileStretchTask.run. -/
inductive Ev where
  | crop (a : Str)
  | poll
  | readBands
  | computeIndex
  | writeTif
  | buildVrt
  | computeStats
  | exportPng
deriving DecidableEq

/-- In-order events of the direct 3-band branch of ThumbnailTask.run,
thumb_tasks.py:133-200: per-asset crop each followed by an isCanceled poll
(lines 143-156), then BuildVRT (159), the per-band min/max statistics
(165-177) and the byte PNG export (181-196), none of which is preceded by a
further poll. -/
def thumbDirectEvents : List Str → List Ev
  | [] => [Ev.buildVrt, Ev.computeStats, Ev.exportPng]
  | a :: rest => Ev.crop a :: Ev.poll :: thumbDirectEvents rest

/-- In-order events of the index-as-color branch of ThumbnailTask.run,
thumb_tasks.py:69-131: two crops, the band reads, the index computation, the
GTiff write, the 3-fold BuildVRT and the PNG export — with no isCanceled
poll anywhere on this path. -/
def thumbIndexEvents (a1 a2 : Str) : List Ev :=
  [Ev.crop a1, Ev.crop a2, Ev.readBands, Ev.computeIndex, Ev.writeTif,
   Ev.buildVrt, Ev.exportPng]

/-- In-order events of PercentileStretchTask.run, render_tasks.py:46-58: one
percentile computation per band, each followed by an isCanceled poll. -/
def stretchEvents : List Ev :=
  [Ev.computeStats, Ev.poll, Ev.computeStats, Ev.poll, Ev.computeStats, Ev.poll]

/-- Cooperative execution of an event list against the cancellation flag:
the flag is a function of time (one tick per executed event); a poll event
reads the flag at its own tick and, when the flag is set, the run stops with
the canceled outcome (False) and the later events never execute.  Returns
the run result together with the list of events that actually executed. -/
def execEvents : List Ev → (ℕ → Bool) → ℕ → Bool × List Ev
  | [], _, _ => (true, [])
  | e :: rest, flag, t =>
      if e = Ev.poll ∧ flag t = true then (false, [e])
      else
        let r := execEvents rest flag (t + 1)
        (r.1, e :: r.2)

/-- The first element of the role list (rgb_assets[0]) with Python truthiness:
an empty list never reaches the subscript because of the preceding
self.rgb_assets test; the default value only feeds the startswith test,
where it yields false exactly as Python short-circuits. -/
def headStr (rgb : List Str) : Str := rgb.headD []

/-- Message of the KeyError raised by a missing assets_dict subscript. -/
def keyErrorMsg (k : Str) : Str := "KeyError: ".toList ++ k

/-- Message of the IndexError raised by a missing rgb_assets subscript. -/
def indexErrorMsg : Str := "IndexError: list index out of range".toList

/-- rgb_assets[i] as a fallible lookup. -/
def getRole (rgb : List Str) (i : ℕ) : Except Str Str :=
  match rgb.get? i with
  | some a => Except.ok a
  | none => Except.error indexErrorMsg

/-- assets_dict[a]["href"] as a fallible association-list lookup; the scene
asset manifest is modeled as a name-to-href association list. -/
def lookupHref (assets : List (Str × Str)) (k : Str) : Except Str Str :=
  match List.lookup k assets with
  | some h => Except.ok h
  | none => Except.error (keyErrorMsg k)

/-- Fallible GDAL primitives available to ThumbnailTask.run, abstracting
gdal.Translate + gdal.Open + ReadAsArray (readBand, yielding the cropped
band array of a resolved VSI source), gdal.Open of the built VRT (openVrt,
None becoming a RuntimeError), and the never-raising _band_minmax of
thumb_tasks.py:22-43 (bandMinMax). -/
structure GdalEnv where
  readBand : Str → Except Str (List FVal)
  openVrt : Except Str Unit
  bandMinMax : ℕ → ℚ × ℚ

/-- The index-as-color body of ThumbnailTask.run, thumb_tasks.py:69-131, as
an Except-valued computation: read the mode and the two roles, apply the NBR
swir2 fallback, resolve and crop both hrefs, then build the index thumbnail
values and export parameters.  Any step's exception aborts the body with its
message. -/
def thumbIndexBody (env : GdalEnv) (assets : List (Str × Str)) (rgb : List Str) :
    Except Str IndexThumb :=
  match getRole rgb 1 with
  | Except.error m => Except.error m
  | Except.ok a1 =>
    match getRole rgb 2 with
    | Except.error m => Except.error m
    | Except.ok a2raw =>
      let a2 := thumbResolveA2 (headStr rgb) a2raw (assets.map Prod.fst)
      match lookupHref assets a1 with
      | Except.error m => Except.error m
      | Except.ok h1 =>
        match env.readBand (vsiPath h1) with
        | Except.error m => Except.error m
        | Except.ok b1 =>
          match lookupHref assets a2 with
          | Except.error m => Except.error m
          | Except.ok h2 =>
            match env.readBand (vsiPath h2) with
            | Except.error m => Except.error m
            | Except.ok b2 => Except.ok (thumbIndexMode b1 b2)

/-- The per-asset crop loop of the direct branch, thumb_tasks.py:138-156:
resolve and crop each role in order, polling the cancellation flag after
each crop; a set flag yields the canceled outcome (ok none), an exception
aborts with its message.  The poll ticks are 1, 3, 5, ... matching
thumbDirectEvents. -/
def cropLoop (env : GdalEnv) (assets : List (Str × Str)) :
    List Str → (ℕ → Bool) → ℕ → Except Str (Option (List (List FVal)))
  | [], _, _ => Except.ok (some [])
  | a :: rest, flag, t =>
    match lookupHref assets a with
    | Except.error m => Except.error m
    | Except.ok h =>
      match env.readBand (vsiPath h) with
      | Except.error m => Except.error m
      | Except.ok b =>
        if flag t = true then Except.ok none
        else
          match cropLoop env assets rest flag (t + 2) with
          | Except.error m => Except.error m
          | Except.ok none => Except.ok none
          | Except.ok (some bs) => Except.ok (some (b :: bs))

/-- The PNG export parameters of the direct branch (scaleParams rows
[mn, mx, 0, 255] per band after the zero-range fix), thumb_tasks.py:181-196.
The other Translate arguments (format, size, band list) carry no claim. -/
structure DirectThumb where
  scaleParams : List (List ℚ)
deriving DecidableEq

/-- A scaleParams row [mn, mx, 0, 255]. -/
def scaleRow (p : ℚ × ℚ) : List ℚ := [p.1, p.2, 0, 255]

/-- The direct 3-band body of ThumbnailTask.run, thumb_tasks.py:133-200:
crop each role with cancellation polls, open the built VRT (raising when it
cannot be opened), take the per-band min/max through the zero-range fix and
export.  ok none is the canceled outcome. -/
def thumbDirectBody (env : GdalEnv) (assets : List (Str × Str)) (rgb : List Str)
    (flag : ℕ → Bool) : Except Str (Option DirectThumb) :=
  match cropLoop env assets rgb flag 1 with
  | Except.error m => Except.error m
  | Except.ok none => Except.ok none
  | Except.ok (some _) =>
    match env.openVrt with
    | Except.error m => Except.error m
    | Except.ok _ =>
      let p1 := fixRange (env.bandMinMax 1)
      let p2 := fixRange (env.bandMinMax 2)
      let p3 := fixRange (env.bandMinMax 3)
      Except.ok (some ⟨[scaleRow p1, scaleRow p2, scaleRow p3]⟩)

/-- The output carried by a successful ThumbnailTask.run. -/
inductive ThumbOut where
  | indexPng (p : IndexThumb)
  | directPng (p : DirectThumb)
deriving DecidableEq

/-- The terminal outcome of one task run: the boolean returned by run,
self.png_path as abstract output, and self.error. -/
structure TaskOutcome where
  success : Bool
  output : Option ThumbOut
  error : Option Str
deriving DecidableEq

/-- The body of ThumbnailTask.run inside the try, thumb_tasks.py:65-200: the
mode dispatch on rgb_assets being nonempty with rgb_assets[0] starting with
"__" selects the index branch, which polls no flag; otherwise the direct
branch runs.  ok none is the canceled return False path. -/
def thumbBody (env : GdalEnv) (assets : List (Str × Str)) (rgb : List Str)
    (flag : ℕ → Bool) : Except Str (Option ThumbOut) :=
  if !rgb.isEmpty && startsWithB (headStr rgb) uscore2 then
    match thumbIndexBody env assets rgb with
    | Except.ok p => Except.ok (some (ThumbOut.indexPng p))
    | Except.error m => Except.error m
  else
    match thumbDirectBody env assets rgb flag with
    | Except.ok (some p) => Except.ok (some (ThumbOut.directPng p))
    | Except.ok none => Except.ok none
    | Except.error m => Except.error m

/-- ThumbnailTask.run, thumb_tasks.py:64-205: the whole body runs inside
try; an exception is caught at the task boundary, its message is stored in
self.error and run returns False; a canceled body returns False with no
error; a completed body stores the output and returns True.  Totality of
this function is the no-escaping-exception guarantee. -/
def thumbRun (env : GdalEnv) (assets : List (Str × Str)) (rgb : List Str)
    (flag : ℕ → Bool) : TaskOutcome :=
  match thumbBody env assets rgb flag with
  | Except.ok (some o) => ⟨true, some o, none⟩
  | Except.ok none => ⟨false, none, none⟩
  | Except.error m => ⟨false, none, some m⟩

/-- Fallible raster access of PercentileStretchTask._band_percentiles,
render_tasks.py:19-27: for a band index, either the band array with its
declared nodata value, or the open/read RuntimeError. -/
structure StretchEnv where
  band : ℕ → Except Str (List FVal × Option FVal)

/-- The body of PercentileStretchTask.run inside the try,
render_tasks.py:47-58: three per-band percentile computations, each followed
by an isCanceled poll (ticks 1, 3, 5 matching stretchEvents); ok none is the
canceled return False path. -/
def stretchBody (env : StretchEnv) (flag : ℕ → Bool) (pl ph : ℚ) :
    Except Str (Option ((ℚ × ℚ) × (ℚ × ℚ) × (ℚ × ℚ))) :=
  match env.band 1 with
  | Except.error m => Except.error m
  | Except.ok (a1, n1) =>
    let r := bandPercentiles a1 n1 pl ph
    if flag 1 = true then Except.ok none
    else
      match env.band 2 with
      | Except.error m => Except.error m
      | Except.ok (a2, n2) =>
        let g := bandPercentiles a2 n2 pl ph
        if flag 3 = true then Except.ok none
        else
          match env.band 3 with
          | Except.error m => Except.error m
          | Except.ok (a3, n3) =>
            let b := bandPercentiles a3 n3 pl ph
            if flag 5 = true then Except.ok none
            else Except.ok (some (r, g, b))

/-- The terminal outcome of PercentileStretchTask.run: the returned boolean,
self.result and self.error. -/
structure StretchOutcome where
  success : Bool
  result : Option ((ℚ × ℚ) × (ℚ × ℚ) × (ℚ × ℚ))
  error : Option Str
deriving DecidableEq

/-- PercentileStretchTask.run, render_tasks.py:46-62: the body inside try;
a caught exception stores its message and returns False. -/
def stretchRun (env : StretchEnv) (flag : ℕ → Bool) (pl ph : ℚ) : StretchOutcome :=
  match stretchBody env flag pl ph with
  | Except.ok (some r) => ⟨true, some r, none⟩
  | Except.ok none => ⟨false, none, none⟩
  | Except.error m => ⟨false, none, some m⟩

/-- The value-level core of _crop_assets_to_index_tif, dockwidget.py:708-805:
NBR swir2 fallback, resolve and crop both assets (the Warp re-gridding of the
second band being absorbed into the band read), then the scaled, cleaned and
clipped index array. -/
def cropAssetsToIndexTif (env : GdalEnv) (assets : List (Str × Str))
    (mode a1 a2 pfx : Str) : Except Str (List ℚ) :=
  let a2b := dockResolveA2 mode a2 (assets.map Prod.fst)
  match lookupHref assets a1 with
  | Except.error m => Except.error m
  | Except.ok h1 =>
    match env.readBand (vsiPath h1) with
    | Except.error m => Except.error m
    | Except.ok b1 =>
      match lookupHref assets a2b with
      | Except.error m => Except.error m
      | Except.ok h2 =>
        match env.readBand (vsiPath h2) with
        | Except.error m => Except.error m
        | Except.ok b2 => Except.ok (cropIndexArray pfx b1 b2)

/-- The asset-role string "red". -/
def redStr : Str := "red".toList

/-- The asset-role string "green". -/
def greenStr : Str := "green".toList

/-- The asset-role string "blue". -/
def blueStr : Str := "blue".toList

/-- The asset-role string "nir". -/
def nirStr : Str := "nir".toList

/-- A cancellation flag that becomes set at tick 6 — the moment the direct
branch starts compositing (BuildVRT), before the PNG export at tick 8. -/
def lateCancelFlag : ℕ → Bool := fun t => decide (6 ≤ t)

/-- A cancellation flag that is set from the very start of the run. -/
def cancelAllFlag : ℕ → Bool := fun _ => true

/-- A demo href for the nir asset. -/
def nirHref : Str := "http://n.tif".toList

/-- A demo href for the swir2 asset. -/
def swir2Href : Str := "http://s.tif".toList

/-- A demo manifest holding nir and swir2 but not swir22, as in the
collections that motivate the fallback. -/
def demoAssets : List (Str × Str) := [(nirStr, nirHref), (swir2Str, swir2Href)]

/-- A demo GDAL environment whose band reads always yield the one-cell
array [1]. -/
def demoEnv : GdalEnv :=
  { readBand := fun _ => Except.ok [FVal.fin 1]
  , openVrt := Except.ok ()
  , bandMinMax := fun _ => (0, 1) }

/-- The NBR thumbnail role list ["__NBR__", "nir", "swir22"]. -/
def demoRgb : List Str := [nbrMarker, nirStr, swir22Str]

/-- The RuntimeError message of the unopenable VRT, thumb_tasks.py:163. -/
def openVrtErrMsg : Str := "No se pudo abrir el VRT para calcular min/max.".toList

/-- The RuntimeError message of an unopenable raster, render_tasks.py:21. -/
def rasterOpenErrMsg : Str := "No se pudo abrir raster".toList

/-- A GDAL environment in which opening the VRT fails, as with an
unreadable intermediate file. -/
def failEnv : GdalEnv :=
  { readBand := fun _ => Except.ok []
  , openVrt := Except.error openVrtErrMsg
  , bandMinMax := fun _ => (0, 1) }

/-- A stretch environment in which every raster open fails. -/
def failStretchEnv : StretchEnv := { band := fun _ => Except.error rasterOpenErrMsg }

lemma cleanClip_cases (z : FVal) :
    cleanClip z = sentinelQ ∨ (-1 ≤ cleanClip z ∧ cleanClip z ≤ 1) := by
  cases z with
  | fin q =>
    by_cases hq : q = sentinelQ
    · left; simp [cleanClip, hq]
    · right
      simp only [cleanClip, hq, if_false]
      unfold clipQ
      constructor <;> split_ifs <;> linarith
  | nan => left; rfl
  | posInf => left; rfl
  | negInf => left; rfl

lemma cropIndexPixel_cases (pfx : Str) (x y : FVal) :
    cropIndexPixel pfx x y = sentinelQ ∨
      (-1 ≤ cropIndexPixel pfx x y ∧ cropIndexPixel pfx x y ≤ 1) :=
  cleanClip_cases _

lemma exists_of_mem_zipWith {α β γ : Type} {f : α → β → γ} :
    ∀ {l1 : List α} {l2 : List β} {y : γ}, y ∈ List.zipWith f l1 l2 → ∃ a b, y = f a b := by
  intro l1
  induction l1 with
  | nil => intro l2 y h; simp at h
  | cons a t ih =>
    intro l2 y h
    cases l2 with
    | nil => simp at h
    | cons b t2 =>
      simp only [List.zipWith_cons_cons, List.mem_cons] at h
      rcases h with h | h
      · exact ⟨a, b, h⟩
      · exact ih h

/-- Claim C1: in _crop_assets_to_index_tif, after the quotient
(band1 - band2) / (band1 + band2) is computed, every non-finite cell becomes
the sentinel -9999, every other finite cell is clipped into [-1, 1] by
np.clip, sentinel-valued cells are left untouched by the clip, and hence
every cell of the written index array that is not the sentinel lies in
[-1, 1], for every sensor prefix and every pair of input band arrays. -/
theorem c1_index_domain (pfx : Str) (b1 b2 : List FVal) (y : ℚ) :
    (∀ x : FVal, x.isFinite = false → cleanClip x = sentinelQ)
    ∧ (∀ q : ℚ, q ≠ sentinelQ → cleanClip (FVal.fin q) = clipQ q ∧ -1 ≤ clipQ q ∧ clipQ q ≤ 1)
    ∧ cleanClip (FVal.fin sentinelQ) = sentinelQ
    ∧ (y ∈ cropIndexArray pfx b1 b2 → y ≠ sentinelQ → -1 ≤ y ∧ y ≤ 1) := by
  refine ⟨?_, ?_, ?_, ?_⟩
  · intro x hx
    cases x <;> simp_all [FVal.isFinite, cleanClip]
  · intro q hq
    refine ⟨by simp [cleanClip, hq], ?_, ?_⟩ <;>
      (unfold clipQ; split_ifs <;> linarith)
  · simp [cleanClip]
  · intro hy hne
    obtain ⟨a, b, rfl⟩ := exists_of_mem_zipWith hy
    rcases cropIndexPixel_cases pfx a b with h | h
    · exact absurd h hne
    · exact h

/-- Claim C1 witness: the cell 0 produced by equal nonzero bands on the
Sentinel-2 path is a non-sentinel member of the written array and lies in
[-1, 1]. -/
theorem c1_index_domain_witness :
    (0 : ℚ) ∈ cropIndexArray s2Str [FVal.fin 1] [FVal.fin 1]
    ∧ (0 : ℚ) ≠ sentinelQ
    ∧ (-1 ≤ (0 : ℚ) ∧ (0 : ℚ) ≤ 1) := by
  have hmem : (0 : ℚ) ∈ cropIndexArray s2Str [FVal.fin 1] [FVal.fin 1] := by
    have hs2 : ¬(toLowerStr s2Str = lsStr) := by decide
    norm_num [cropIndexArray, cropIndexPixel, cleanClip, clipQ, nd, scaleIf, hs2,
      FVal.div, FVal.sub, FVal.add, FVal.neg, sentinelQ]
  have hne : (0 : ℚ) ≠ sentinelQ := by norm_num [sentinelQ]
  exact ⟨hmem, hne, (c1_index_domain s2Str [FVal.fin 1] [FVal.fin 1] 0).2.2.2 hmem hne⟩

/-- Claim C9: for every pair of input band arrays, every cell of the written
index array is either in [-1, 1] or exactly the sentinel -9999; and a finite
quotient that happens to equal exactly -9999 (such as the one produced by
band values -4999 and 5000) is kept as the sentinel by the equality test of
the np.where and is not clipped into [-1, 1]. -/
theorem c9_codomain_invariant (pfx : Str) (b1 b2 : List FVal) (y : ℚ) :
    (y ∈ cropIndexArray pfx b1 b2 → y = sentinelQ ∨ (-1 ≤ y ∧ y ≤ 1))
    ∧ nd (FVal.fin (-4999)) (FVal.fin 5000) = FVal.fin sentinelQ
    ∧ cropIndexPixel s2Str (FVal.fin (-4999)) (FVal.fin 5000) = sentinelQ := by
  refine ⟨?_, ?_, ?_⟩
  · intro hy
    obtain ⟨a, b, rfl⟩ := exists_of_mem_zipWith hy
    exact cropIndexPixel_cases pfx a b
  · norm_num [nd, FVal.sub, FVal.neg, FVal.add, FVal.div, sentinelQ]
  · have hs2 : ¬(toLowerStr s2Str = lsStr) := by decide
    norm_num [cropIndexPixel, scaleIf, hs2, cleanClip, nd, FVal.sub, FVal.neg,
      FVal.add, FVal.div, sentinelQ]

/-- Claim C9 witness: the sentinel produced by the finite quotient of band
values -4999 and 5000 is a member of the written array and falls in the
sentinel branch of the codomain disjunction. -/
theorem c9_codomain_invariant_witness :
    sentinelQ ∈ cropIndexArray s2Str [FVal.fin (-4999)] [FVal.fin 5000]
    ∧ (sentinelQ = sentinelQ ∨ (-1 ≤ sentinelQ ∧ sentinelQ ≤ 1)) := by
  have hmem : sentinelQ ∈ cropIndexArray s2Str [FVal.fin (-4999)] [FVal.fin 5000] := by
    have hs2 : ¬(toLowerStr s2Str = lsStr) := by decide
    norm_num [cropIndexArray, cropIndexPixel, cleanClip, clipQ, nd, scaleIf, hs2,
      FVal.div, FVal.sub, FVal.add, FVal.neg, sentinelQ]
  exact ⟨hmem, (c9_codomain_invariant s2Str [FVal.fin (-4999)] [FVal.fin 5000] sentinelQ).1 hmem⟩

/-- Claim C7: the reflectance transform value * 0.0000275 - 0.2 is applied
to both bands before the index quotient if and only if the request prefix
lowercases to "ls" (the Landsat family); for the Sentinel-2 prefix "s2" and
any other prefix the bands enter the quotient unscaled. -/
theorem c7_sensor_scaling (x y : FVal) :
    cropIndexPixel lsStr x y = cleanClip (nd (lsScale x) (lsScale y))
    ∧ cropIndexPixel s2Str x y = cleanClip (nd x y)
    ∧ (∀ q : ℚ, lsScale (FVal.fin q) = FVal.fin (q * LS_SR_MULT + LS_SR_ADD))
    ∧ (∀ pfx : Str, toLowerStr pfx ≠ lsStr → cropIndexPixel pfx x y = cleanClip (nd x y)) := by
  have hls : toLowerStr lsStr = lsStr := by decide
  have hs2 : ¬(toLowerStr s2Str = lsStr) := by decide
  refine ⟨?_, ?_, ?_, ?_⟩
  · simp [cropIndexPixel, scaleIf, hls]
  · simp [cropIndexPixel, scaleIf, hs2]
  · intro q; rfl
  · intro pfx h; simp [cropIndexPixel, scaleIf, h]

/-- Claim C7 witness: the Sentinel-2 prefix does not lowercase to "ls" and
its compositor cell equals the unscaled quotient at a concrete input. -/
theorem c7_sensor_scaling_witness :
    toLowerStr s2Str ≠ lsStr
    ∧ cropIndexPixel s2Str (FVal.fin 5) (FVal.fin 3) = cleanClip (nd (FVal.fin 5) (FVal.fin 3)) :=
  ⟨by decide, (c7_sensor_scaling (FVal.fin 5) (FVal.fin 3)).2.2.2 s2Str (by decide)⟩

/-- Claim C8: on the unscaled path (spec 4.5 with no sensor scaling, the
Sentinel-2 prefix), NDVI of two equal band arrays is zero at every cell
where the common value is nonzero and the sentinel -9999 exactly where the
common value is zero (0/0 being NaN and cleaned to the sentinel). -/
theorem c8_equal_bands (band : List ℚ) :
    cropIndexArray s2Str (band.map FVal.fin) (band.map FVal.fin)
      = band.map (fun v => if v = 0 then sentinelQ else 0) := by
  have hs2 : ¬(toLowerStr s2Str = lsStr) := by decide
  have hpix : ∀ v : ℚ, cropIndexPixel s2Str (FVal.fin v) (FVal.fin v)
      = if v = 0 then sentinelQ else 0 := by
    intro v
    by_cases hv : v = 0
    · subst hv
      norm_num [cropIndexPixel, scaleIf, hs2, nd, FVal.sub, FVal.neg, FVal.add,
        FVal.div, cleanClip]
    · have hvv : v + v ≠ 0 := by intro h; apply hv; linarith
      norm_num [cropIndexPixel, scaleIf, hs2, nd, FVal.sub, FVal.neg, FVal.add,
        FVal.div, hv, hvv, cleanClip, clipQ, sentinelQ]
  induction band with
  | nil => rfl
  | cons v tl ih =>
    simp only [List.map_cons, cropIndexArray, List.zipWith_cons_cons] at ih ⊢
    rw [hpix v, ih]

/-- Claim C2: for every band array and declared nodata value,
_band_percentiles with p_low=2 and p_high=98 — dropping nodata and
non-finite cells, falling back to (min, max) or (0, 1) below 100 valid
samples, widening degenerate pairs by +1 on the max, and falling back from
degenerate percentile pairs to true (min, max) — always returns a pair with
max strictly greater than min; both components are exact rationals of the
embedding, so neither is NaN nor infinite. -/
theorem c2_percentile_range (arr0 : List FVal) (nodata : Option FVal) :
    (bandPercentiles arr0 nodata 2 98).1 < (bandPercentiles arr0 nodata 2 98).2 := by
  simp only [bandPercentiles]
  split_ifs <;> simp_all

/-- Claim C3 counterexample: with three bands the direct branch polls only
at ticks 1, 3 and 5 (after each crop); a flag set from tick 6 onward — set
while compositing runs and before the export write begins at tick 8 — is
never observed, the run returns True and the export executes, so the task
does reach success with the flag set before the output write began.  With
the flag set from tick 0 the index-as-color branch still executes every
event and returns True, because that branch polls no flag at all. -/
theorem c3_cancellation_counterexample :
    lateCancelFlag 6 = true
    ∧ lateCancelFlag 7 = true
    ∧ execEvents (thumbDirectEvents [redStr, greenStr, blueStr]) lateCancelFlag 0
        = (true, thumbDirectEvents [redStr, greenStr, blueStr])
    ∧ Ev.exportPng ∈ (execEvents (thumbDirectEvents [redStr, greenStr, blueStr]) lateCancelFlag 0).2
    ∧ cancelAllFlag 0 = true
    ∧ execEvents (thumbIndexEvents nirStr redStr) cancelAllFlag 0
        = (true, thumbIndexEvents nirStr redStr)
    ∧ Ev.exportPng ∈ (execEvents (thumbIndexEvents nirStr redStr) cancelAllFlag 0).2 := by
  decide

lemma execDirect_spec (flag : ℕ → Bool) :
    ∀ (rgb : List Str) (t : ℕ),
      ((execEvents (thumbDirectEvents rgb) flag t).1 = false →
        Ev.exportPng ∉ (execEvents (thumbDirectEvents rgb) flag t).2)
      ∧ ((execEvents (thumbDirectEvents rgb) flag t).1 = true →
        (execEvents (thumbDirectEvents rgb) flag t).2 = thumbDirectEvents rgb) := by
  intro rgb
  induction rgb with
  | nil =>
    intro t
    constructor
    · intro h
      simp [thumbDirectEvents, execEvents] at h
    · intro _
      simp [thumbDirectEvents, execEvents]
  | cons a tl ih =>
    intro t
    by_cases hf : flag (t + 1) = true
    · constructor
      · intro _
        simp [thumbDirectEvents, execEvents, hf]
      · intro h
        simp [thumbDirectEvents, execEvents, hf] at h
    · have hrec := ih (t + 2)
      constructor
      · intro h
        simp only [thumbDirectEvents, execEvents, hf] at h ⊢
        simp at h ⊢
        exact fun hx => (hrec.1 h) hx
      · intro h
        simp only [thumbDirectEvents, execEvents, hf] at h ⊢
        simp at h ⊢
        exact hrec.2 h

/-- Claim C3 as amended: cancellation is checked only after each per-band
crop in the direct 3-band branch and after each per-band percentile step of
PercentileStretchTask.run; when the direct branch's run returns the canceled
outcome (False) the PNG export never executed, and when it returns True the
whole event list — whose polls all read an unset flag — executed; the
index-as-color branch contains no poll at all, executes every event and
returns True regardless of the flag; and the stretch task succeeds exactly
when the flag is unset at each of its three per-band polls. -/
theorem c3_cancellation_checkpoints (rgb : List Str) (a1 a2 : Str) (flag : ℕ → Bool) :
    ((execEvents (thumbDirectEvents rgb) flag 0).1 = false →
      Ev.exportPng ∉ (execEvents (thumbDirectEvents rgb) flag 0).2)
    ∧ ((execEvents (thumbDirectEvents rgb) flag 0).1 = true →
      (execEvents (thumbDirectEvents rgb) flag 0).2 = thumbDirectEvents rgb)
    ∧ Ev.poll ∉ thumbIndexEvents a1 a2
    ∧ execEvents (thumbIndexEvents a1 a2) flag 0 = (true, thumbIndexEvents a1 a2)
    ∧ (execEvents stretchEvents flag 0).1 = (!flag 1 && !flag 3 && !flag 5) := by
  refine ⟨(execDirect_spec flag rgb 0).1, (execDirect_spec flag rgb 0).2, ?_, ?_, ?_⟩
  · simp [thumbIndexEvents]
  · simp [thumbIndexEvents, execEvents]
  · cases h1 : flag 1 <;> cases h3 : flag 3 <;> cases h5 : flag 5 <;>
      simp [stretchEvents, execEvents, h1, h3, h5]

/-- Claim C3 amended witness: with the flag set from the start, the direct
branch on one band returns the canceled outcome and its export never
executed. -/
theorem c3_cancellation_checkpoints_witness :
    (execEvents (thumbDirectEvents [redStr]) cancelAllFlag 0).1 = false
    ∧ Ev.exportPng ∉ (execEvents (thumbDirectEvents [redStr]) cancelAllFlag 0).2 :=
  ⟨by decide, (c3_cancellation_checkpoints [redStr] nirStr redStr cancelAllFlag).1 (by decide)⟩

/-- Claim C4 counterexample: at the band pair (2, 1) the thumbnail index
fast path produces the unscaled quotient 1/3, which differs from the value
the claimed Landsat sensor scaling of section 4.5 would produce — the
thumbnail branch of ThumbnailTask.run applies no sensor scaling at all. -/
theorem c4_thumb_scaling_counterexample :
    thumbIndexArray [FVal.fin 2] [FVal.fin 1]
      = [specThumbIndexPixel false (FVal.fin 2) (FVal.fin 1)]
    ∧ thumbIndexArray [FVal.fin 2] [FVal.fin 1]
      ≠ [specThumbIndexPixel true (FVal.fin 2) (FVal.fin 1)] := by
  constructor
  · norm_num [thumbIndexArray, thumbIndexPixel, specThumbIndexPixel, cleanNoClip, nd,
      FVal.sub, FVal.neg, FVal.add, FVal.div]
  · norm_num [thumbIndexArray, thumbIndexPixel, specThumbIndexPixel, cleanNoClip, nd,
      FVal.sub, FVal.neg, FVal.add, FVal.div, lsScale, LS_SR_MULT, LS_SR_ADD]

/-- Claim C4 as amended: in the index-as-color mode ThumbnailTask.run crops
the two underlying bands and applies the index math with no sensor scaling
and no clip — only non-finite cells are replaced with the sentinel -9999,
finite cells pass through unchanged (so the value 2 from bands 3 and -1 is
exported as is) — stacks the resulting single band three times, and exports
a byte PNG with the fixed linear scale [-1, 1, 0, 255] and nodata -9999. -/
theorem c4_thumb_index_mode (b1 b2 : List FVal) :
    (thumbIndexMode b1 b2).bandValues = List.zipWith (specThumbIndexPixel false) b1 b2
    ∧ (∀ x y : FVal, thumbIndexPixel x y = cleanNoClip (nd x y))
    ∧ cleanNoClip FVal.nan = sentinelQ
    ∧ cleanNoClip FVal.posInf = sentinelQ
    ∧ cleanNoClip FVal.negInf = sentinelQ
    ∧ (∀ q : ℚ, cleanNoClip (FVal.fin q) = q)
    ∧ (thumbIndexMode b1 b2).stackCount = 3
    ∧ (thumbIndexMode b1 b2).scaleParams = List.replicate 3 pngScaleRow
    ∧ pngScaleRow = [-1, 1, 0, 255]
    ∧ (thumbIndexMode b1 b2).pngNoData = sentinelQ
    ∧ (thumbIndexMode b1 b2).tifNoData = sentinelQ
    ∧ thumbIndexArray [FVal.fin 3] [FVal.fin (-1)] = [2] := by
  have hspec : specThumbIndexPixel false = thumbIndexPixel := by
    funext x y
    simp [specThumbIndexPixel, thumbIndexPixel]
  refine ⟨?_, fun x y => rfl, rfl, rfl, rfl, fun q => rfl, rfl, rfl, rfl, rfl, rfl, ?_⟩
  · simp [thumbIndexMode, thumbIndexArray, hspec]
  · norm_num [thumbIndexArray, thumbIndexPixel, cleanNoClip, nd,
      FVal.sub, FVal.neg, FVal.add, FVal.div]

lemma startsWithB_append (p rest : Str) : startsWithB (p ++ rest) p = true := by
  induction p with
  | nil => cases rest <;> rfl
  | cons c p ih => simp [startsWithB, ih]

lemma eq_append_of_startsWithB : ∀ (href p : Str), startsWithB href p = true →
    ∃ t, href = p ++ t := by
  intro href p
  induction p generalizing href with
  | nil => intro _; exact ⟨href, rfl⟩
  | cons c p ih =>
    intro h
    cases href with
    | nil => simp [startsWithB] at h
    | cons a ss =>
      simp only [startsWithB, Bool.and_eq_true, beq_iff_eq] at h
      obtain ⟨t, ht⟩ := ih ss h.2
      exact ⟨t, by simp [h.1, ht]⟩

/-- Claim C6: _src_from_href maps the empty href to the bare "/vsicurl/"
descriptor (failing downstream, raising nothing here); an href beginning
with s3:// to "/vsis3/" plus the remainder after the scheme, with the GDAL
access configuration set to unsigned (AWS_NO_SIGN_REQUEST=YES) requester
pays (AWS_REQUEST_PAYER=requester) and no credentialed option; an http(s)
href to "/vsicurl/" plus the full href; any other href unchanged; and
s3://bucket/key.tif in particular to /vsis3/bucket/key.tif. -/
theorem c6_src_from_href (cfg : GdalConfig) (rest href : Str) :
    srcFromHref [] cfg = (vsicurlStr, cfg)
    ∧ srcFromHref (s3Scheme ++ rest) cfg = (vsis3Str ++ rest, unsignedRequesterPays)
    ∧ unsignedRequesterPays.awsNoSignRequest = some yesStr
    ∧ unsignedRequesterPays.awsRequestPayer = some requesterStr
    ∧ (startsWithB href httpScheme = true → srcFromHref href cfg = (vsicurlStr ++ href, cfg))
    ∧ (startsWithB href httpsScheme = true → srcFromHref href cfg = (vsicurlStr ++ href, cfg))
    ∧ (href ≠ [] → startsWithB href s3Scheme = false → startsWithB href httpScheme = false →
        startsWithB href httpsScheme = false → srcFromHref href cfg = (href, cfg))
    ∧ srcFromHref ("s3://bucket/key.tif".toList) cfg
        = ("/vsis3/bucket/key.tif".toList, unsignedRequesterPays) := by
  have hs3 : s3Scheme = 's' :: '3' :: ':' :: '/' :: '/' :: ([] : Str) := rfl
  have hs3gen : ∀ r : Str, srcFromHref (s3Scheme ++ r) cfg = (vsis3Str ++ r, unsignedRequesterPays) := by
    intro r
    have hne : ¬(s3Scheme ++ r = []) := by rw [hs3]; simp
    have hsw : startsWithB (s3Scheme ++ r) s3Scheme = true := startsWithB_append s3Scheme r
    have hdrop : (s3Scheme ++ r).drop 5 = r := by rw [hs3]; rfl
    simp [srcFromHref, hne, hsw, hdrop]
  refine ⟨rfl, hs3gen rest, rfl, rfl, ?_, ?_, ?_, ?_⟩
  · intro h
    obtain ⟨t, rfl⟩ := eq_append_of_startsWithB href httpScheme h
    have hne : ¬(httpScheme ++ t = []) := by simp [httpScheme]
    have hns3 : startsWithB (httpScheme ++ t) s3Scheme = false := rfl
    simp [srcFromHref, hne, hns3, h]
  · intro h
    obtain ⟨t, rfl⟩ := eq_append_of_startsWithB href httpsScheme h
    have hne : ¬(httpsScheme ++ t = []) := by simp [httpsScheme]
    have hns3 : startsWithB (httpsScheme ++ t) s3Scheme = false := rfl
    simp [srcFromHref, hne, hns3, h]
  · intro h0 h1 h2 h3
    simp [srcFromHref, h0, h1, h2, h3]
  · have he1 : ("s3://bucket/key.tif".toList : Str) = s3Scheme ++ "bucket/key.tif".toList := by
      decide
    have he2 : ("/vsis3/bucket/key.tif".toList : Str) = vsis3Str ++ "bucket/key.tif".toList := by
      decide
    rw [he1, he2]
    exact hs3gen _

/-- Claim C6 witness: a concrete http href is rewritten to its /vsicurl/
form with the configuration untouched. -/
theorem c6_src_from_href_witness :
    startsWithB ("http://x".toList) httpScheme = true
    ∧ srcFromHref ("http://x".toList) ⟨none, none⟩
        = (vsicurlStr ++ "http://x".toList, ⟨none, none⟩) :=
  ⟨by decide, (c6_src_from_href ⟨none, none⟩ [] ("http://x".toList)).2.2.2.2.1 (by decide)⟩

/-- Claim C10: in NBR mode, when the requested second band is absent from
the manifest and "swir2" is present, both the thumbnail resolution (mode
from rgb_assets[0].strip("_").upper()) and the index-raster resolution
(mode.upper()) silently substitute "swir2"; in every other (mode, asset)
combination the requested name is used unchanged; and both pipelines then
run to a successful result on a manifest without "swir22" instead of
failing with a missing-asset error. -/
theorem c10_swir2_fallback (a2 rgb0 mode : Str) (keys : List Str) :
    (a2 ∉ keys → swir2Str ∈ keys →
      thumbResolveA2 nbrMarker a2 keys = swir2Str ∧ dockResolveA2 nbrStr a2 keys = swir2Str)
    ∧ (toUpperStr mode ≠ nbrStr → dockResolveA2 mode a2 keys = a2)
    ∧ (toUpperStr (stripUS rgb0) ≠ nbrStr → thumbResolveA2 rgb0 a2 keys = a2)
    ∧ (a2 ∈ keys → dockResolveA2 mode a2 keys = a2 ∧ thumbResolveA2 rgb0 a2 keys = a2)
    ∧ (swir2Str ∉ keys → dockResolveA2 mode a2 keys = a2 ∧ thumbResolveA2 rgb0 a2 keys = a2)
    ∧ cropAssetsToIndexTif demoEnv demoAssets nbrStr nirStr swir22Str s2Str = Except.ok [0]
    ∧ thumbIndexBody demoEnv demoAssets demoRgb
        = Except.ok (thumbIndexMode [FVal.fin 1] [FVal.fin 1]) := by
  have hm1 : toUpperStr (stripUS nbrMarker) = nbrStr := by decide
  have hm2 : toUpperStr nbrStr = nbrStr := by decide
  refine ⟨?_, ?_, ?_, ?_, ?_, ?_, ?_⟩
  · intro h1 h2
    constructor <;> simp [thumbResolveA2, dockResolveA2, nbrFallback, hm1, hm2, h1, h2]
  · intro h
    simp [dockResolveA2, nbrFallback, h]
  · intro h
    simp [thumbResolveA2, nbrFallback, h]
  · intro h
    constructor <;> simp [dockResolveA2, thumbResolveA2, nbrFallback, h]
  · intro h
    constructor <;> simp [dockResolveA2, thumbResolveA2, nbrFallback, h]
  · have hfb : dockResolveA2 nbrStr swir22Str (demoAssets.map Prod.fst) = swir2Str := by decide
    have hl1 : lookupHref demoAssets nirStr = Except.ok nirHref := rfl
    have hl2 : lookupHref demoAssets swir2Str = Except.ok swir2Href := rfl
    have hs2 : ¬(toLowerStr s2Str = lsStr) := by decide
    simp only [cropAssetsToIndexTif, hfb, hl1, hl2, demoEnv]
    norm_num [cropIndexArray, cropIndexPixel, cleanClip, clipQ, nd, scaleIf, hs2,
      FVal.div, FVal.sub, FVal.add, FVal.neg, sentinelQ]
  · have hfb : thumbResolveA2 (headStr demoRgb) swir22Str (demoAssets.map Prod.fst)
        = swir2Str := by decide
    have hg1 : getRole demoRgb 1 = Except.ok nirStr := rfl
    have hg2 : getRole demoRgb 2 = Except.ok swir22Str := rfl
    have hl1 : lookupHref demoAssets nirStr = Except.ok nirHref := rfl
    have hl2 : lookupHref demoAssets swir2Str = Except.ok swir2Href := rfl
    simp only [thumbIndexBody, hg1, hg2, hfb, hl1, hl2, demoEnv]

/-- Claim C10 witness: with "swir22" absent and "swir2" present both
resolvers substitute "swir2". -/
theorem c10_swir2_fallback_witness :
    swir22Str ∉ [nirStr, swir2Str]
    ∧ swir2Str ∈ [nirStr, swir2Str]
    ∧ thumbResolveA2 nbrMarker swir22Str [nirStr, swir2Str] = swir2Str
    ∧ dockResolveA2 nbrStr swir22Str [nirStr, swir2Str] = swir2Str := by
  have h := (c10_swir2_fallback swir22Str nbrMarker nbrStr [nirStr, swir2Str]).1
    (by decide) (by decide)
  exact ⟨by decide, by decide, h.1, h.2⟩

/-- Claim C5: for every environment, manifest, role list, flag and
percentile bounds, whenever the body of ThumbnailTask.run or of
PercentileStretchTask.run raises (aborts with an exception message), the
run method catches it at the task boundary, records the message in the
error field and returns False; and a successful run never carries an error.
No exception escapes either run method: both are total functions of the
embedding into terminal outcomes. -/
theorem c5_task_boundary (env : GdalEnv) (senv : StretchEnv) (assets : List (Str × Str))
    (rgb : List Str) (flag : ℕ → Bool) (pl ph : ℚ) (m : Str) :
    (thumbBody env assets rgb flag = Except.error m →
      thumbRun env assets rgb flag = ⟨false, none, some m⟩)
    ∧ (stretchBody senv flag pl ph = Except.error m →
      stretchRun senv flag pl ph = ⟨false, none, some m⟩)
    ∧ ((thumbRun env assets rgb flag).success = true →
      (thumbRun env assets rgb flag).error = none)
    ∧ ((stretchRun senv flag pl ph).success = true →
      (stretchRun senv flag pl ph).error = none) := by
  refine ⟨?_, ?_, ?_, ?_⟩
  · intro h
    simp [thumbRun, h]
  · intro h
    simp [stretchRun, h]
  · intro h
    unfold thumbRun at h ⊢
    rcases hb : thumbBody env assets rgb flag with m0 | o
    · simp [hb] at h
    · cases o <;> simp [hb] at h ⊢
  · intro h
    unfold stretchRun at h ⊢
    rcases hb : stretchBody senv flag pl ph with m0 | o
    · simp [hb] at h
    · cases o <;> simp [hb] at h ⊢

/-- Claim C5 witness: a failing VRT open in the thumbnail task and a failing
raster open in the stretch task are both caught, recorded and converted into
the failure outcome. -/
theorem c5_task_boundary_witness :
    thumbBody failEnv [] [] cancelAllFlag = Except.error openVrtErrMsg
    ∧ thumbRun failEnv [] [] cancelAllFlag = ⟨false, none, some openVrtErrMsg⟩
    ∧ stretchBody failStretchEnv cancelAllFlag 2 98 = Except.error rasterOpenErrMsg
    ∧ stretchRun failStretchEnv cancelAllFlag 2 98 = ⟨false, none, some rasterOpenErrMsg⟩ := by
  have h1 : thumbBody failEnv [] [] cancelAllFlag = Except.error openVrtErrMsg := rfl
  have h2 : stretchBody failStretchEnv cancelAllFlag 2 98 = Except.error rasterOpenErrMsg := rfl
  exact ⟨h1,
    (c5_task_boundary failEnv failStretchEnv [] [] cancelAllFlag 2 98 openVrtErrMsg).1 h1,
    h2,
    (c5_task_boundary failEnv failStretchEnv [] [] cancelAllFlag 2 98 rasterOpenErrMsg).2.1 h2⟩
